import Mathlib

/-!
Verification development for the transport-reliability and streaming-decode
layer of the exchangelib repository (file exchangelib/util.py).

The Python source is shallowly embedded: bytes are lists of naturals,
Python str values are Lean String values (with character-list helper
operations standing in for the Python str methods lower, startswith,
strip and the in operator), fallible functions return Except, and the
retry loop of post_ratelimited is driven by a script of attempt outcomes
with explicit fuel. Time is modelled in whole seconds: each recorded
back-off of w seconds contributes w to the elapsed wall-clock total that
the code measures with time.monotonic().
-/

/-! ## Byte and string helpers -/

/-- Bytes are modelled as lists of naturals (each in 0..255 for real data). -/
abbrev Bytes := List Nat

/-- Byte values of an ASCII string, used to transcribe Python bytes literals. -/
def asciiBytes (s : String) : Bytes := s.data.map Char.toNat

/-- The apostrophe character, kept out of string literals. -/
def apos : Char := Char.ofNat 39

/-- Does list l begin with list p (model of Python startswith on bytes). -/
def leadsWith (p l : Bytes) : Bool := decide (l.take p.length = p)

/-- Does list l end with list p (model of Python endswith on bytes). -/
def trailsWith (p l : Bytes) : Bool := decide (l.drop (l.length - p.length) = p)

/-- Does list p occur contiguously inside list l (model of the Python
in operator on bytes). -/
def hasSub (p l : Bytes) : Bool :=
  match l with
  | [] => decide (p = [])
  | _ :: t => decide (l.take p.length = p) || hasSub p t

/-- Model of Python str.lower restricted to ASCII, working on the character
data of the string so that it evaluates in the kernel. -/
def strLower (s : String) : String := ⟨s.data.map Char.toLower⟩

/-- Model of Python str.startswith. -/
def strLeads (pre s : String) : Bool := decide (s.data.take pre.data.length = pre.data)

/-- Model of Python str.strip for ASCII whitespace. -/
def strStrip (s : String) : String :=
  ⟨((s.data.dropWhile Char.isWhitespace).reverse.dropWhile Char.isWhitespace).reverse⟩

/-- Drop the first n characters of a string (model of Python slicing s[n:]). -/
def strDropN (s : String) (n : Nat) : String := ⟨s.data.drop n⟩

/-- Decidable equality for Except values, used to evaluate embedded fallible
functions on concrete inputs. -/
instance {ε α : Type} [DecidableEq ε] [DecidableEq α] : DecidableEq (Except ε α)
  | .ok a, .ok b =>
    if h : a = b then .isTrue (by rw [h]) else .isFalse (by intro hc; cases hc; exact h rfl)
  | .error a, .error b =>
    if h : a = b then .isTrue (by rw [h]) else .isFalse (by intro hc; cases hc; exact h rfl)
  | .ok _, .error _ => .isFalse (by intro hc; cases hc)
  | .error _, .ok _ => .isFalse (by intro hc; cases hc)

/-! ## Errors (exchangelib/errors.py classes used by util.py) -/

/-- The exception classes of the source that the embedded functions can raise.
RateLimitError carries url, status code and total wait as in the source. -/
inductive EwsError where
  | transportError (msg : String)
  | rateLimitError (msg : String) (url : String) (status_code : Nat) (total_wait : Nat)
  | redirectError (url : String)
  | relativeRedirect (url : String)
  | casError (msg : String)
  | unauthorizedError (msg : String)
  | errorInvalidSchemaVersionForMailboxVersion (msg : String)
  | timeoutException (msg : String)
deriving Repr, DecidableEq

/-! ## Responses -/

/-- Embedding of the HTTP response object as used by util.py: status code,
final URL, headers (looked up by exact key, matching the DummyResponse
plain-dict behaviour), body bytes and redirect history. -/
structure Response where
  status_code : Nat
  url : String
  headers : List (String × String)
  content : Bytes
  history : List String
deriving Repr, DecidableEq

/-- Model of headers.get(key): first value stored under the key, if any. -/
def headerGet (headers : List (String × String)) (k : String) : Option String :=
  (headers.find? (fun p => p.1 == k)).map Prod.snd

/-- Embedding of DummyResponse: a synthetic response with empty body,
empty history and status code 503 unless overridden. -/
def DummyResponse (url : String) (headers : List (String × String))
    (status_code : Nat := 503) : Response :=
  { status_code := status_code, url := url, headers := headers, content := [], history := [] }

/-! ## is_xml (util.py lines 546-561) -/

/-- UTF-8 byte order mark. -/
def BOM_UTF8 : Bytes := [239, 187, 191]

/-- Byte values of the default expected start of an XML document. -/
def xmlDeclStart : Bytes := asciiBytes "<?xml"

/-- Embedding of is_xml: lightweight test whether a byte string is an XML
document, comparing the start of the text (after an optional UTF-8 byte
order mark) with the expected start bytes. -/
def is_xml (text : Bytes) (expectedStart : Bytes := xmlDeclStart) : Bool :=
  let bom_len := BOM_UTF8.length
  let sLen := expectedStart.length
  let found := if text.take bom_len = BOM_UTF8
    then (text.drop bom_len).take sLen
    else text.take sLen
  decide (found = expectedStart)

/-! ## URL splitting (util.py lines 665-668) and a urlparse model -/

/-- Result of parsing a URL into scheme, network location and path. -/
structure ParsedUrl where
  scheme : String
  netloc : String
  path : String
deriving Repr, DecidableEq

/-- Characters permitted in a URL scheme. -/
def isSchemeChar (c : Char) : Bool := c.isAlphanum || c == Char.ofNat 43 || c == Char.ofNat 45 || c == Char.ofNat 46

/-- Splits character data at the first occurrence of the three characters
colon slash slash, returning the part before and the part after. -/
def findSchemeSplit : List Char → Option (List Char × List Char)
  | [] => none
  | c :: rest =>
    if (c :: rest).take 3 = [Char.ofNat 58, Char.ofNat 47, Char.ofNat 47] then
      some ([], (c :: rest).drop 3)
    else
      match findSchemeSplit rest with
      | some (s, r) => some (c :: s, r)
      | none => none

/-- Modelled after the Python standard library function urllib.parse.urlparse,
which is external to the repository, restricted to URLs without query and
fragment components as used by split_url: an absolute URL splits into a
lowercased scheme, a netloc running to the next slash, and the remaining
path; a network-relative URL beginning with two slashes has an empty scheme;
anything else is all path. -/
def urlparse (url : String) : ParsedUrl :=
  match findSchemeSplit url.data with
  | some (schemeChars, rest) =>
    if schemeChars ≠ [] ∧ schemeChars.all isSchemeChar = true ∧
        (schemeChars.head?.map Char.isAlpha).getD false = true then
      let netloc := rest.takeWhile (fun c => c ≠ Char.ofNat 47)
      let path := rest.dropWhile (fun c => c ≠ Char.ofNat 47)
      ⟨⟨schemeChars.map Char.toLower⟩, ⟨netloc⟩, ⟨path⟩⟩
    else ⟨"", "", url⟩
  | none =>
    if url.data.take 2 = [Char.ofNat 47, Char.ofNat 47] then
      let rest := url.data.drop 2
      let netloc := rest.takeWhile (fun c => c ≠ Char.ofNat 47)
      ⟨"", ⟨netloc⟩, ⟨rest.dropWhile (fun c => c ≠ Char.ofNat 47)⟩⟩
    else ⟨"", "", url⟩

/-- Embedding of split_url: whether the scheme is https, the lowercased
netloc, and the path. -/
def split_url (url : String) : Bool × String × String :=
  let p := urlparse url
  (p.scheme == "https", strLower p.netloc, p.path)

/-! ## get_redirect_url (util.py lines 671-699) -/

/-- Embedding of get_redirect_url: resolve the location header of a redirect
response against the response URL, raising TransportError when the location
header is missing or empty or when resolution reproduces the request URL,
and RelativeRedirect according to the allow_relative and require_relative
flags. -/
def get_redirect_url (response : Response) (allow_relative : Bool := true)
    (require_relative : Bool := false) : Except EwsError String :=
  let redirect_url := (headerGet response.headers "location").getD ""
  if redirect_url = "" then
    .error (.transportError "HTTP redirect but no location header")
  else
    let (redirect_has_ssl, redirect_server, redirect_path) := split_url redirect_url
    let request_url := match response.history with
      | [] => response.url
      | u :: _ => u
    let (request_has_ssl, request_server, _) := split_url request_url
    let (response_has_ssl, response_server, response_path) := split_url response.url
    let redirect_server₁ := if redirect_server = "" then response_server else redirect_server
    let redirect_has_ssl₁ := if redirect_server = "" then response_has_ssl else redirect_has_ssl
    let redirect_path₁ :=
      if strLeads "/" redirect_path = false then
        (if response_path = "" then "/" else response_path) ++ redirect_path
      else redirect_path
    let redirect_url₁ :=
      (if redirect_has_ssl₁ then "https" else "http") ++ "://" ++ redirect_server₁ ++ redirect_path₁
    if redirect_url₁ = request_url then
      .error (.transportError ("Redirect to same location: " ++ redirect_url₁))
    else if allow_relative = false ∧
        (request_has_ssl = response_has_ssl ∧ request_server = redirect_server₁) then
      .error (.relativeRedirect redirect_url₁)
    else if require_relative = true ∧
        (request_has_ssl ≠ response_has_ssl ∨ request_server ≠ redirect_server₁) then
      .error (.relativeRedirect redirect_url₁)
    else
      .ok redirect_url₁

/-! ## Retry machinery constants and helpers (util.py lines 702-703, 885-943) -/

/-- Seconds to wait before retry on connection errors. -/
def RETRY_WAIT : Nat := 10

/-- Maximum number of URL redirects before giving up. -/
def MAX_REDIRECTS : Nat := 10

/-- Byte values of the server error marker checked by _may_retry_on_error. -/
def serverErrorMarker : Bytes :=
  asciiBytes ("Server Error in " ++ apos.toString ++ "/EWS" ++ apos.toString ++ " Application")

/-- Byte values of the first invalid-schema-version marker. -/
def invalidVersionMarkerA : Bytes := asciiBytes "The specified server version is invalid"

/-- Byte values of the second invalid-schema-version marker. -/
def invalidVersionMarkerB : Bytes := asciiBytes "ErrorInvalidSchemaVersionForMailboxVersion"

/-- Byte values of the locked-out-account marker. -/
def lockedOutMarker : Bytes := asciiBytes "The referenced account is currently locked out"

/-- Lowercased location header value that marks a generic error page redirect. -/
def genericErrorPagePath : String :=
  "/ews/genericerrorpage.htm?aspxerrorpath=/ews/exchange.asmx"

/-- Retry policy as read by the loop: the fail-fast flag and the maximum
cumulative wait in seconds. The implementation of back_off and
back_off_until lives outside util.py and is modelled from the spec in the
loop embedding below. -/
structure RetryPolicy where
  fail_fast : Bool
  max_wait : Nat
deriving Repr, DecidableEq

/-- Embedding of _may_retry_on_error: decides whether the loop may retry,
raising RateLimitError when the cumulative wait exceeds max_wait. -/
def _may_retry_on_error (response : Response) (retry_policy : RetryPolicy) (wait : Nat) :
    Except EwsError Bool :=
  if response.status_code ∉ [301, 302, 401, 500, 503] then
    .ok false
  else if retry_policy.fail_fast then
    .ok false
  else if retry_policy.max_wait < wait then
    .error (.rateLimitError "Max timeout reached" response.url response.status_code wait)
  else if response.status_code = 401
      ∨ headerGet response.headers "connection" = some "close"
      ∨ (response.status_code = 302 ∧
          strLower ((headerGet response.headers "location").getD "") = genericErrorPagePath)
      ∨ response.status_code = 503
      ∨ (response.status_code = 500 ∧ hasSub serverErrorMarker response.content = true) then
    .ok true
  else
    .ok false

/-- Embedding of _need_new_credentials: status 401 with a truthy
TokenExpiredError header. -/
def _need_new_credentials (response : Response) : Bool :=
  response.status_code == 401 &&
    !((headerGet response.headers "TokenExpiredError").getD "" == "")

/-- Embedding of _redirect_or_fail: resolve the redirect target, mapping a
RelativeRedirect to RedirectError, refusing redirects when not allowed, and
enforcing the maximum redirect count. -/
def _redirect_or_fail (response : Response) (redirects : Nat) (allow_redirects : Bool) :
    Except EwsError (String × Nat) :=
  match get_redirect_url response false with
  | .error (.relativeRedirect u) => .error (.redirectError u)
  | .error e => .error e
  | .ok redirect_url =>
    if allow_redirects = false then
      .error (.transportError
        ("Redirect not allowed but we were redirected (" ++ response.url ++ " -> " ++
          redirect_url ++ ")"))
    else
      let redirects₁ := redirects + 1
      if MAX_REDIRECTS < redirects₁ then
        .error (.transportError "Max redirect count exceeded")
      else
        .ok (redirect_url, redirects₁)

/-- Embedding of _raise_response_errors as the error value it raises. -/
def _raise_response_errors (response : Response) (policy : RetryPolicy) : EwsError :=
  let cas_error := (headerGet response.headers "X-CasErrorCode").getD ""
  if cas_error ≠ "" then
    .casError (if strLeads "CAS error:" cas_error then strStrip (strDropN cas_error 10) else cas_error)
  else if response.status_code = 500 ∧
      (hasSub invalidVersionMarkerA response.content = true ∨
        hasSub invalidVersionMarkerB response.content = true) then
    .errorInvalidSchemaVersionForMailboxVersion "Invalid server version"
  else if hasSub lockedOutMarker response.content = true then
    .transportError "The service account is currently locked out"
  else if response.status_code = 401 ∧ policy.fail_fast = true then
    .unauthorizedError ("Invalid credentials for " ++ response.url)
  else
    match headerGet response.headers "TimeoutException" with
    | some t => .timeoutException t
    | none =>
      .transportError ("Unknown failure in response. Code: " ++ toString response.status_code)

/-! ## The retry loop of post_ratelimited (util.py lines 719-882)

The loop is driven by a script assigning to each attempt index the outcome
of session.post: either a response object, or one of the exception classes
the code catches around the post call. Fuel bounds the number of loop
iterations so the embedding is total; every claim is stated with enough
fuel. Sessions are identified by naturals; the external session lifecycle
functions renew_session and refresh_credentials, which are not part of
util.py, are modelled from the spec: they replace the session with a fresh
one, here the next session id. Waiting is modelled from the spec as well:
back_off(wait) records a cool-down of wait seconds which the following
iteration sleeps out in _back_off_if_needed (renewing the session), so each
recorded back-off adds its wait to the elapsed total measured by
time.monotonic(). -/

/-- Outcome of one session.post attempt. -/
inductive AttemptOutcome where
  | resp (r : Response)
  | tlsError (msg : String)
  | connError (msg : String)
  | tokenExpired (msg : String)
  | keyError (msg : String)
deriving Repr, DecidableEq

/-- The try block around session.post: TLS errors raise TransportError at
once; connection errors, expired tokens and missing auth headers are turned
into DummyResponse values exactly as in the source. -/
def attempt_result (url : String) : AttemptOutcome → Except String Response
  | .resp r => .ok r
  | .tlsError msg => .error msg
  | .connError msg => .ok (DummyResponse url [("TimeoutException", msg)])
  | .tokenExpired msg => .ok (DummyResponse url [("TokenExpiredError", msg)] 401)
  | .keyError msg => .ok (DummyResponse url [("KeyError", msg)])

/-- Mutable state of the retry loop: current url, session id, next wait,
retry and redirect counters, elapsed whole seconds of recorded waiting, and
the list of cool-downs recorded through retry_policy.back_off. -/
structure LoopState where
  url : String
  session : Nat
  wait : Nat
  retry : Nat
  redirects : Nat
  elapsed : Nat
  backoffs : List Nat
deriving Repr, DecidableEq

/-- Loop state at entry of post_ratelimited. -/
def initState (url : String) (session : Nat) : LoopState :=
  { url := url, session := session, wait := RETRY_WAIT, retry := 0, redirects := 0,
    elapsed := 0, backoffs := [] }

/-- Result of a run: the returned response and session, a raised error, or
exhausted fuel (a modelling artifact, never reached with enough fuel). -/
inductive Outcome where
  | ok (r : Response) (session : Nat)
  | err (e : EwsError)
  | fuelExhausted
deriving Repr, DecidableEq

/-- A finished run: its outcome, the session retired on the way out if any,
and the loop state at exit. -/
structure RunResult where
  outcome : Outcome
  retired : Option Nat
  finalState : LoopState
deriving Repr, DecidableEq

/-- Embedding of the while loop of post_ratelimited together with its
surrounding try blocks and the terminal classification after the loop.
Every raise site retires the current session, as the source does through
its except handlers and the explicit retire_session call before
_raise_response_errors. -/
def post_loop (policy : RetryPolicy) (allow_redirects : Bool)
    (script : Nat → AttemptOutcome) : Nat → Nat → LoopState → RunResult
  | 0, _, st => ⟨.fuelExhausted, none, st⟩
  | fuel + 1, n, st =>
    match attempt_result st.url (script n) with
    | .error msg => ⟨.err (.transportError msg), some st.session, st⟩
    | .ok r =>
      if _need_new_credentials r then
        post_loop policy allow_redirects script fuel (n + 1)
          { st with session := st.session + 1 }
      else
        match _may_retry_on_error r policy st.elapsed with
        | .error e => ⟨.err e, some st.session, st⟩
        | .ok true =>
          post_loop policy allow_redirects script fuel (n + 1)
            { st with session := st.session + 1,
                      elapsed := st.elapsed + st.wait,
                      backoffs := st.backoffs ++ [st.wait],
                      retry := st.retry + 1,
                      wait := st.wait * 2 }
        | .ok false =>
          if r.status_code = 301 ∨ r.status_code = 302 then
            match _redirect_or_fail r st.redirects allow_redirects with
            | .error e => ⟨.err e, some st.session, st⟩
            | .ok (url₁, redirects₁) =>
              post_loop policy allow_redirects script fuel (n + 1)
                { st with url := url₁, redirects := redirects₁ }
          else
            if r.status_code = 500 ∧ r.content ≠ [] ∧ is_xml r.content = true then
              ⟨.ok r st.session, none, st⟩
            else if r.status_code ≠ 200 then
              ⟨.err (_raise_response_errors r policy), some st.session, st⟩
            else
              ⟨.ok r st.session, none, st⟩

/-- Embedding of post_ratelimited: run the loop from the initial state. -/
def post_ratelimited (policy : RetryPolicy) (allow_redirects : Bool)
    (script : Nat → AttemptOutcome) (url : String) (session : Nat) (fuel : Nat) : RunResult :=
  post_loop policy allow_redirects script fuel 0 (initState url session)

/-! ## DocumentYielder (util.py lines 455-501) -/

/-- Consume bytes up to and including the first stop byte, returning the
consumed bytes and the rest; at end of input everything was consumed. -/
def takeThrough (stop : Nat) : Bytes → Bytes × Bytes
  | [] => ([], [])
  | c :: rest =>
    if c = stop then ([c], rest)
    else
      let tr := takeThrough stop rest
      (c :: tr.1, tr.2)

theorem takeThrough_snd_length (stop : Nat) : ∀ l : Bytes, (takeThrough stop l).2.length ≤ l.length
  | [] => Nat.le_refl _
  | c :: rest => by
    simp only [takeThrough]
    split
    · simp
    · simpa using Nat.le_succ_of_le (takeThrough_snd_length stop rest)

/-- Embedding of DocumentYielder.get_tag: collect a byte string starting
with an opening angle bracket and running through the stop byte (or to the
end of the stream), returning it with the unconsumed rest. -/
def get_tag (stop : Nat) (input : Bytes) : Bytes × Bytes :=
  let tr := takeThrough stop input
  (60 :: tr.1, tr.2)

theorem get_tag_snd_length (stop : Nat) (l : Bytes) : (get_tag stop l).2.length ≤ l.length :=
  takeThrough_snd_length stop l

/-- Byte values of the start token of DocumentYielder for a document tag. -/
def docStartToken (document_tag : String) : Bytes := asciiBytes ("<" ++ document_tag)

/-- Byte values of the end token of DocumentYielder for a document tag. -/
def docEndToken (document_tag : String) : Bytes := asciiBytes ("/" ++ document_tag ++ ">")

/-- Byte values of the XML declaration DocumentYielder puts before each
yielded document. -/
def xmlDeclLine : Bytes :=
  asciiBytes ("<?xml version=" ++ apos.toString ++ "1.0" ++ apos.toString ++
    " encoding=" ++ apos.toString ++ "utf-8" ++ apos.toString ++ "?>" ++ "\n")

/-- Embedding of the loop body of DocumentYielder.iter as a function of the
remaining input, the doc_started flag and the accumulated buffer, returning
the list of yielded documents. A document still open when the input runs
out is dropped. Every iteration consumes at least one input byte, so the
loop is driven by structural fuel; fuel of at least the input length plus
one never runs out and documentYielder below supplies exactly that. -/
def docYield (startTok endTok : Bytes) : Nat → Bytes → Bool → Bytes → List Bytes
  | 0, _, _, _ => []
  | _ + 1, [], _, _ => []
  | fuel + 1, c :: rest, false, buffer =>
    if c = 60 then
      let tr := get_tag 32 rest
      if leadsWith startTok tr.1 then docYield startTok endTok fuel tr.2 true (buffer ++ tr.1)
      else docYield startTok endTok fuel tr.2 false buffer
    else docYield startTok endTok fuel rest false buffer
  | fuel + 1, c :: rest, true, buffer =>
    if c = 60 then
      let tr := get_tag 62 rest
      if trailsWith endTok tr.1 then
        (xmlDeclLine ++ buffer ++ tr.1) :: docYield startTok endTok fuel tr.2 false []
      else docYield startTok endTok fuel tr.2 true (buffer ++ tr.1)
    else docYield startTok endTok fuel rest true (buffer ++ [c])

/-- Embedding of iterating DocumentYielder over a full byte stream. -/
def documentYielder (content : Bytes) (document_tag : String := "Envelope") : List Bytes :=
  docYield (docStartToken document_tag) (docEndToken document_tag)
    (content.length + 1) content false []

/-! ## Base64 decoding (model of the standard library b64decode) -/

/-- Value of one base64 alphabet character. -/
def b64val (c : Char) : Nat :=
  if 65 ≤ c.toNat ∧ c.toNat ≤ 90 then c.toNat - 65
  else if 97 ≤ c.toNat ∧ c.toNat ≤ 122 then c.toNat - 71
  else if 48 ≤ c.toNat ∧ c.toNat ≤ 57 then c.toNat + 4
  else if c.toNat = 43 then 62
  else if c.toNat = 47 then 63
  else 0

/-- Modelled after the Python standard library function base64.b64decode,
which is external to the repository, on input whose length is a multiple of
four: each quadruple of characters contributes three bytes, or fewer when
it ends in padding characters. -/
def b64decode : List Char → List Nat
  | a :: b :: c :: d :: rest =>
    let n := ((b64val a * 64 + b64val b) * 64 + b64val c) * 64 + b64val d
    (if d.toNat = 61 then
      if c.toNat = 61 then [n / 65536] else [n / 65536, n / 256 % 256]
    else [n / 65536, n / 256 % 256, n % 256]) ++ b64decode rest
  | _ => []

/-! ## StreamingBase64Parser and StreamingContentHandler
(util.py lines 296-322, 346-395) -/

/-- Embedding of StreamingBase64Parser._decode_buffer, one fragment at a
time: merge the remainder with the fragment, withhold the trailing bytes
that are not a multiple of four, decode the rest if nonempty, and pass the
new remainder on. Returns the decoded chunks and the final remainder. -/
def decodeFold : List Char → List (List Char) → List (List Nat) × List Char
  | remainder, [] => ([], remainder)
  | remainder, data :: rest =>
    let available := remainder.length + data.length
    let overflow := available % 4
    let data₁ := remainder ++ data
    let rem₂ := if overflow ≠ 0 then data₁.drop (data₁.length - overflow) else []
    let data₂ := if overflow ≠ 0 then data₁.take (data₁.length - overflow) else data₁
    let res := decodeFold rem₂ rest
    (if data₂ ≠ [] then b64decode data₂ :: res.1 else res.1, res.2)

/-- Embedding of StreamingBase64Parser._decode_buffer: flush the whole
character buffer through decodeFold and keep the remainder, if any, as the
single element of the new buffer. -/
def _decode_buffer (buffer : List (List Char)) : List (List Nat) × List (List Char) :=
  let res := decodeFold [] buffer
  (res.1, if res.2 ≠ [] then [res.2] else [])

/-- The SAX events the expat parser delivers to the content handler. -/
inductive SaxEvent where
  | startElementNS (ns name : String)
  | endElementNS (ns name : String)
  | characters (content : List Char)
deriving Repr, DecidableEq

/-- State shared between StreamingContentHandler and StreamingBase64Parser:
the handler parsing flag, the parser element_found flag and the character
buffer. -/
structure SaxState where
  parsing : Bool
  element_found : Bool
  buffer : List (List Char)
deriving Repr, DecidableEq

/-- Embedding of StreamingContentHandler: entering the target element sets
parsing and element_found, leaving it clears parsing, and character data is
buffered only while parsing. -/
def handleEvent (ns element_name : String) (st : SaxState) : SaxEvent → SaxState
  | .startElementNS n e =>
    if n = ns ∧ e = element_name then { st with parsing := true, element_found := true } else st
  | .endElementNS n e =>
    if n = ns ∧ e = element_name then { st with parsing := false } else st
  | .characters content =>
    if st.parsing then { st with buffer := st.buffer ++ [content] } else st

/-- Deliver a list of SAX events to the content handler in order. -/
def handleEvents (ns element_name : String) (st : SaxState) (events : List SaxEvent) : SaxState :=
  events.foldl (handleEvent ns element_name) st

/-- Modelled from the spec: the namespace-aware expat tokenizer driven by
StreamingBase64Parser is external (xml.sax.expatreader); it is abstracted
as a deterministic machine that consumes one chunk of bytes at a time and
emits SAX events. -/
structure ExpatModel (σ : Type) where
  init : σ
  feed : σ → Bytes → σ × List SaxEvent

/-- State of a running StreamingBase64Parser.parse: the expat machine
state, the shared SAX state and the raw bytes collected while the target
element has not yet been found. -/
structure ParseState (σ : Type) where
  expat : σ
  sax : SaxState
  collected : Bytes

/-- Embedding of StreamingBase64Parser.feed for one chunk: feed the expat
machine, deliver its events to the handler, then flush the character buffer
through _decode_buffer, yielding the decoded chunks. -/
def feed_step {σ : Type} (M : ExpatModel σ) (ns element_name : String)
    (st : ParseState σ) (chunk : Bytes) : ParseState σ × List (List Nat) :=
  let fe := M.feed st.expat chunk
  let sax₁ := handleEvents ns element_name st.sax fe.2
  let flush := _decode_buffer sax₁.buffer
  (⟨fe.1, { sax₁ with buffer := flush.2 }, st.collected⟩, flush.1)

/-- Embedding of the read loop of StreamingBase64Parser.parse: for each
chunk, bytes are collected while element_found is still false, then the
chunk is fed; the loop stops at the end of the stream or at an empty read.
Returns all yielded decoded chunks and the final state. -/
def parse_loop {σ : Type} (M : ExpatModel σ) (ns element_name : String) :
    List Bytes → ParseState σ → List (List Nat) × ParseState σ
  | [], st => ([], st)
  | chunk :: rest, st =>
    if chunk = [] then ([], st)
    else
      let st₀ := if st.sax.element_found then st else { st with collected := st.collected ++ chunk }
      let fs := feed_step M ns element_name st₀ chunk
      let res := parse_loop M ns element_name rest fs.1
      (fs.2 ++ res.1, res.2)

/-- Parse state at the start of StreamingBase64Parser.parse. -/
def init_parse_state {σ : Type} (M : ExpatModel σ) : ParseState σ :=
  ⟨M.init, ⟨false, false, []⟩, []⟩

/-- Embedding of StreamingBase64Parser.parse: run the read loop and, if the
target element was never found, raise ElementNotFound carrying the message
and the collected raw bytes. -/
def streamingParse {σ : Type} (M : ExpatModel σ) (ns element_name : String)
    (chunks : List Bytes) : Except (String × Bytes) (List (List Nat)) :=
  let res := parse_loop M ns element_name chunks (init_parse_state M)
  if res.2.sax.element_found then .ok res.1
  else .error ("The element to be streamed from was not found", res.2.collected)

/-- The sequence of SAX events emitted along a run of the read loop, for
stating which elements occurred in the stream. -/
def parse_trace {σ : Type} (M : ExpatModel σ) (ns element_name : String) :
    List Bytes → ParseState σ → List SaxEvent
  | [], _ => []
  | chunk :: rest, st =>
    if chunk = [] then []
    else
      let st₀ := if st.sax.element_found then st else { st with collected := st.collected ++ chunk }
      let fe := M.feed st₀.expat chunk
      let fs := feed_step M ns element_name st₀ chunk
      fe.2 ++ parse_trace M ns element_name rest fs.1

/-! ## Lemmas about the base64 flush -/

/-- Base64 decoding distributes over appending at any four-character
boundary. -/
theorem b64decode_append : ∀ (x y : List Char), x.length % 4 = 0 →
    b64decode (x ++ y) = b64decode x ++ b64decode y
  | [], y, _ => by simp [b64decode]
  | [a], y, h => by simp at h
  | [a, b], y, h => by simp at h
  | [a, b, c], y, h => by simp at h
  | a :: b :: c :: d :: rest, y, h => by
    have h4 : rest.length % 4 = 0 := by
      simp [List.length_cons] at h
      omega
    simp only [List.cons_append, b64decode, List.append_eq]
    rw [b64decode_append rest y h4]
    simp [List.append_assoc]

theorem flatten_decode_cons (d : List Char) (ys : List (List Nat)) :
    (if d ≠ [] then b64decode d :: ys else ys).flatten = b64decode d ++ ys.flatten := by
  by_cases h : d = [] <;> simp [h, b64decode]

/-- Specification of decodeFold: starting from a remainder shorter than
four characters, the final remainder is the unaligned tail of the total
character stream seen, and the decoded chunks flatten to the base64
decoding of its aligned part. -/
theorem decodeFold_spec : ∀ (frags : List (List Char)) (rem : List Char), rem.length < 4 →
    (decodeFold rem frags).2 =
        (rem ++ frags.flatten).drop
          ((rem ++ frags.flatten).length - (rem ++ frags.flatten).length % 4) ∧
    ((decodeFold rem frags).1).flatten =
        b64decode ((rem ++ frags.flatten).take
          ((rem ++ frags.flatten).length - (rem ++ frags.flatten).length % 4))
  | [], rem, hrem => by
    constructor
    · simp [decodeFold, Nat.mod_eq_of_lt hrem]
    · simp [decodeFold, Nat.mod_eq_of_lt hrem, b64decode]
  | data :: rest, rem, hrem => by
    simp only [decodeFold, List.flatten_cons, List.length_append, ← List.append_assoc]
    by_cases hov : (rem.length + data.length) % 4 = 0
    · have ih := decodeFold_spec rest [] (by decide)
      simp only [List.nil_append] at ih
      simp only [hov, ne_eq, not_true_eq_false, ite_false]
      have hlA : rem.length + data.length = (rem ++ data).length :=
        (List.length_append rem data).symm
      have hlen : (rem ++ data).length % 4 = 0 := by
        rw [List.length_append]
        omega
      have hsub :
          rem.length + data.length + rest.flatten.length -
              (rem.length + data.length + rest.flatten.length) % 4 =
            rem.length + data.length +
              (rest.flatten.length - rest.flatten.length % 4) := by
        omega
      constructor
      · rw [ih.1, hsub, hlA, List.drop_append]
      · rw [flatten_decode_cons, ih.2, hsub, hlA, List.take_append,
          b64decode_append _ _ hlen]
    · simp only [hov, ne_eq, not_false_eq_true, ite_true]
      have hov4 : (rem.length + data.length) % 4 < 4 := Nat.mod_lt _ (by omega)
      have hkle : rem.length + data.length - (rem.length + data.length) % 4 ≤
          (rem ++ data).length := by
        rw [List.length_append]
        omega
      have hrem2len :
          ((rem ++ data).drop
              (rem.length + data.length - (rem.length + data.length) % 4)).length =
            (rem.length + data.length) % 4 := by
        rw [List.length_drop, List.length_append]
        omega
      have ih := decodeFold_spec rest
        ((rem ++ data).drop (rem.length + data.length - (rem.length + data.length) % 4))
        (by rw [hrem2len]; exact hov4)
      rw [List.length_append, hrem2len] at ih
      have hdlen :
          ((rem ++ data).take
              (rem.length + data.length - (rem.length + data.length) % 4)).length =
            rem.length + data.length - (rem.length + data.length) % 4 :=
        List.length_take_of_le hkle
      have hdmod :
          ((rem ++ data).take
              (rem.length + data.length - (rem.length + data.length) % 4)).length % 4 = 0 := by
        rw [hdlen]
        omega
      have hT :
          (rem ++ data) ++ rest.flatten =
            ((rem ++ data).take
                (rem.length + data.length - (rem.length + data.length) % 4)) ++
              (((rem ++ data).drop
                  (rem.length + data.length - (rem.length + data.length) % 4)) ++
                rest.flatten) := by
        rw [← List.append_assoc, List.take_append_drop]
      have hsub :
          rem.length + data.length + rest.flatten.length -
              (rem.length + data.length + rest.flatten.length) % 4 =
            ((rem ++ data).take
                (rem.length + data.length - (rem.length + data.length) % 4)).length +
              (((rem.length + data.length) % 4 + rest.flatten.length) -
                ((rem.length + data.length) % 4 + rest.flatten.length) % 4) := by
        rw [hdlen]
        omega
      constructor
      · rw [ih.1, hsub, hT, List.drop_append]
      · rw [flatten_decode_cons, ih.2, hsub, hT, List.take_append,
          b64decode_append _ _ hdmod]

/-! ## Lemmas about the streaming parser -/

theorem handleEvent_element_found (ns en : String) (st : SaxState) (ev : SaxEvent) :
    (handleEvent ns en st ev).element_found =
      (st.element_found || ev == .startElementNS ns en) := by
  cases ev <;> simp only [handleEvent, beq_iff_eq] <;> split <;> simp_all

theorem handleEvents_element_found (ns en : String) :
    ∀ (evs : List SaxEvent) (st : SaxState),
      (handleEvents ns en st evs).element_found =
        (st.element_found || evs.any (fun ev => ev == .startElementNS ns en))
  | [], st => by simp [handleEvents]
  | ev :: evs, st => by
    simp only [handleEvents, List.foldl_cons, List.any_cons]
    rw [show List.foldl (handleEvent ns en) (handleEvent ns en st ev) evs =
      handleEvents ns en (handleEvent ns en st ev) evs from rfl]
    rw [handleEvents_element_found ns en evs (handleEvent ns en st ev),
      handleEvent_element_found]
    simp [Bool.or_assoc]

theorem feed_step_element_found {σ : Type} (M : ExpatModel σ) (ns en : String)
    (st : ParseState σ) (chunk : Bytes) :
    ((feed_step M ns en st chunk).1).sax.element_found =
      (st.sax.element_found ||
        (M.feed st.expat chunk).2.any (fun ev => ev == .startElementNS ns en)) := by
  simp [feed_step, handleEvents_element_found]

theorem feed_step_collected {σ : Type} (M : ExpatModel σ) (ns en : String)
    (st : ParseState σ) (chunk : Bytes) :
    ((feed_step M ns en st chunk).1).collected = st.collected := rfl

theorem collect_if_sax {σ : Type} (st : ParseState σ) (chunk : Bytes) :
    (if st.sax.element_found then st
      else { st with collected := st.collected ++ chunk }).sax = st.sax := by
  split <;> rfl

theorem collect_if_expat {σ : Type} (st : ParseState σ) (chunk : Bytes) :
    (if st.sax.element_found then st
      else { st with collected := st.collected ++ chunk }).expat = st.expat := by
  split <;> rfl

theorem parse_loop_element_found {σ : Type} (M : ExpatModel σ) (ns en : String) :
    ∀ (chunks : List Bytes) (st : ParseState σ),
      ((parse_loop M ns en chunks st).2).sax.element_found =
        (st.sax.element_found ||
          (parse_trace M ns en chunks st).any (fun ev => ev == .startElementNS ns en))
  | [], st => by simp [parse_loop, parse_trace]
  | chunk :: rest, st => by
    simp only [parse_loop, parse_trace]
    by_cases hc : chunk = []
    · simp [hc]
    · rw [if_neg hc, if_neg hc]
      dsimp only
      rw [parse_loop_element_found M ns en rest _, List.any_append, feed_step_element_found,
        collect_if_sax, collect_if_expat]
      simp [Bool.or_assoc]

theorem parse_loop_collected {σ : Type} (M : ExpatModel σ) (ns en : String) :
    ∀ (chunks : List Bytes) (st : ParseState σ),
      (∀ c ∈ chunks, c ≠ []) →
      (parse_trace M ns en chunks st).any (fun ev => ev == .startElementNS ns en) = false →
      st.sax.element_found = false →
      ((parse_loop M ns en chunks st).2).collected = st.collected ++ chunks.flatten
  | [], st, _, _, _ => by simp [parse_loop]
  | chunk :: rest, st, hne, htr, hef => by
    have hc : chunk ≠ [] := hne chunk (List.mem_cons_self _ _)
    have hif : (if st.sax.element_found = true then st
        else { st with collected := st.collected ++ chunk }) =
        { st with collected := st.collected ++ chunk } :=
      if_neg (by rw [hef]; exact Bool.false_ne_true)
    rw [parse_trace, if_neg hc] at htr
    dsimp only at htr
    rw [hif, List.any_append, Bool.or_eq_false_iff] at htr
    simp only [parse_loop]
    rw [if_neg hc]
    dsimp only
    rw [hif]
    have hef₀ :
        ((feed_step M ns en { st with collected := st.collected ++ chunk } chunk).1).sax.element_found =
          false := by
      rw [feed_step_element_found]
      dsimp only
      rw [hef]
      simpa using htr.1
    rw [parse_loop_collected M ns en rest _ (fun c hcm => hne c (List.mem_cons_of_mem _ hcm))
      htr.2 hef₀]
    rw [feed_step_collected]
    dsimp only
    simp [List.append_assoc]

/-! ## Claims -/

/-- C7: at every flush through _decode_buffer, the decode consumes exactly
the prefix of the buffered characters whose length is the largest multiple
of four and yields its base64 decoding, and the new buffer withholds the
remaining characters, at most three of them, as its single element (or is
empty when the content was aligned); in particular the pending remainder
never exceeds three characters at any yield point. -/
theorem decode_buffer_aligned (buffer : List (List Char)) :
    ((_decode_buffer buffer).2 =
      if buffer.flatten.length % 4 = 0 then []
      else [buffer.flatten.drop (buffer.flatten.length - buffer.flatten.length % 4)]) ∧
    (((_decode_buffer buffer).1).flatten =
      b64decode (buffer.flatten.take (buffer.flatten.length - buffer.flatten.length % 4))) ∧
    ((_decode_buffer buffer).2).flatten.length ≤ 3 := by
  have h := decodeFold_spec buffer [] (by decide)
  simp only [List.nil_append] at h
  have hlen : ((decodeFold [] buffer).2).length = buffer.flatten.length % 4 := by
    rw [h.1, List.length_drop]
    have := Nat.mod_le buffer.flatten.length 4
    omega
  unfold _decode_buffer
  dsimp only
  refine ⟨?_, ?_, ?_⟩
  · by_cases hm : buffer.flatten.length % 4 = 0
    · have hnil : (decodeFold [] buffer).2 = [] := by
        rw [← List.length_eq_zero, hlen, hm]
      rw [hnil, if_neg (not_not_intro rfl), if_pos hm]
    · have hne : ¬ (decodeFold [] buffer).2 = [] := by
        intro hc
        rw [hc] at hlen
        simp only [List.length_nil] at hlen
        omega
      rw [if_pos hne, if_neg hm, h.1]
  · exact h.2
  · by_cases hne : (decodeFold [] buffer).2 = []
    · rw [if_neg (not_not_intro hne)]
      simp
    · have h4 : buffer.flatten.length % 4 < 4 := Nat.mod_lt _ (by omega)
      rw [if_pos hne]
      have hfl : ([(decodeFold [] buffer).2]).flatten = (decodeFold [] buffer).2 := by simp
      rw [hfl, hlen]
      omega

/-- C6: for every run of the streaming base64 parser over a chunked byte
stream with no empty chunks, if the target element never occurs, that is,
no matching start event appears anywhere in the SAX trace of the run, then
parse raises ElementNotFound at the end of the stream, carrying exactly the
raw bytes consumed from the stream; conversely, if the element was entered
at some point, parse raises no such error and returns the decoded chunks,
even when the element content was empty. -/
theorem streamingParse_element_not_found {σ : Type} (M : ExpatModel σ) (ns en : String)
    (chunks : List Bytes) (hne : ∀ c ∈ chunks, c ≠ []) :
    ((parse_trace M ns en chunks (init_parse_state M)).any
        (fun ev => ev == .startElementNS ns en) = false →
      streamingParse M ns en chunks =
        .error ("The element to be streamed from was not found", chunks.flatten)) ∧
    ((parse_trace M ns en chunks (init_parse_state M)).any
        (fun ev => ev == .startElementNS ns en) = true →
      ∃ ys, streamingParse M ns en chunks = .ok ys) := by
  have h0 : (init_parse_state M).sax.element_found = false := rfl
  constructor
  · intro htr
    unfold streamingParse
    dsimp only
    have hef := parse_loop_element_found M ns en chunks (init_parse_state M)
    rw [htr, h0] at hef
    simp only [Bool.or_false] at hef
    rw [if_neg (by rw [hef]; exact Bool.false_ne_true)]
    have hcol := parse_loop_collected M ns en chunks (init_parse_state M) hne htr h0
    rw [hcol]
    rfl
  · intro htr
    unfold streamingParse
    dsimp only
    have hef := parse_loop_element_found M ns en chunks (init_parse_state M)
    rw [htr, h0] at hef
    simp only [Bool.or_true] at hef
    rw [if_pos hef]
    exact ⟨_, rfl⟩

/-- C6 witness: an expat machine that never emits the target start event
makes parse raise ElementNotFound carrying the whole consumed stream, and
one that emits it makes parse return without error. -/
theorem streamingParse_element_not_found_witness :
    streamingParse (⟨(), fun s _ => (s, [])⟩ : ExpatModel Unit) "ns" "Content" [[1], [2, 3]] =
      .error ("The element to be streamed from was not found", [1, 2, 3]) ∧
    (∃ ys, streamingParse
        (⟨(), fun s _ => (s, [SaxEvent.startElementNS "ns" "Content"])⟩ : ExpatModel Unit)
        "ns" "Content" [[1], [2, 3]] = .ok ys) := by
  constructor
  · have h := (streamingParse_element_not_found (⟨(), fun s _ => (s, [])⟩ : ExpatModel Unit)
      "ns" "Content" [[1], [2, 3]] (by decide)).1 (by decide)
    rw [h]
    rfl
  · exact (streamingParse_element_not_found
      (⟨(), fun s _ => (s, [SaxEvent.startElementNS "ns" "Content"])⟩ : ExpatModel Unit)
      "ns" "Content" [[1], [2, 3]] (by decide)).2 (by decide)

/-- C5: feeding the two-document byte stream consisting of
Envelope a equals 1 around body1 followed by Envelope a equals 2 around
body2, with root tag Envelope, DocumentYielder yields exactly two byte
strings, each the corresponding well-formed single-envelope document and
each prefixed with the XML declaration line. -/
theorem documentYielder_two_documents :
    documentYielder
        (asciiBytes "<Envelope a=\"1\">body1</Envelope><Envelope a=\"2\">body2</Envelope>") =
      [xmlDeclLine ++ asciiBytes "<Envelope a=\"1\">body1</Envelope>",
       xmlDeclLine ++ asciiBytes "<Envelope a=\"2\">body2</Envelope>"] ∧
    leadsWith xmlDeclLine (xmlDeclLine ++ asciiBytes "<Envelope a=\"1\">body1</Envelope>") = true ∧
    leadsWith xmlDeclLine (xmlDeclLine ++ asciiBytes "<Envelope a=\"2\">body2</Envelope>") = true := by
  decide

/-- Loop state of an all-503 run after j retries, built by iterating the
state update the loop performs on each retry. -/
def st503 (url : String) (session : Nat) : Nat → LoopState
  | 0 => initState url session
  | j + 1 =>
    let st := st503 url session j
    { st with
        session := st.session + 1,
        elapsed := st.elapsed + st.wait,
        backoffs := st.backoffs ++ [st.wait],
        retry := st.retry + 1,
        wait := st.wait * 2 }

/-- Closed form of the all-503 loop state: after j retries the session was
renewed j times, the next wait is 10 times 2 to the j, the elapsed recorded
waiting is 10 times 2 to the j minus 10, and the recorded back-offs are 10,
20, up to 10 times 2 to the j minus 1. -/
theorem st503_closed (url : String) (session : Nat) : ∀ j, st503 url session j =
    { url := url, session := session + j, wait := 10 * 2 ^ j, retry := j, redirects := 0,
      elapsed := 10 * 2 ^ j - 10, backoffs := (List.range j).map (fun i => 10 * 2 ^ i) } := by
  intro j
  induction j with
  | zero => simp [st503, initState, RETRY_WAIT]
  | succ j ih =>
    have hp : 0 < 2 ^ j := by positivity
    rw [st503, ih]
    simp only [LoopState.mk.injEq, pow_succ, List.range_succ, List.map_append,
      List.map_cons, List.map_nil]
    repeat' constructor
    all_goals first | rfl | omega

theorem post_loop_503_aux (r : Response) (policy : RetryPolicy) (ar : Bool)
    (script : Nat → AttemptOutcome) (url : String) (session : Nat)
    (h503 : r.status_code = 503) (hff : policy.fail_fast = false)
    (hscript : ∀ n, script n = .resp r) :
    ∀ (K j n fuel : Nat),
      policy.max_wait < 10 * 2 ^ (j + K) - 10 →
      (∀ i < K, 10 * 2 ^ (j + i) - 10 ≤ policy.max_wait) →
      K + 1 ≤ fuel →
      post_loop policy ar script fuel n (st503 url session j) =
        ⟨.err (.rateLimitError "Max timeout reached" r.url 503 (10 * 2 ^ (j + K) - 10)),
          some (session + (j + K)), st503 url session (j + K)⟩ := by
  intro K
  induction K with
  | zero =>
    intro j n fuel hstop hmin hfuel
    obtain ⟨f, rfl⟩ : ∃ f, fuel = f + 1 := ⟨fuel - 1, by omega⟩
    have hstop₀ : policy.max_wait < 10 * 2 ^ j - 10 := by simpa using hstop
    unfold post_loop
    rw [st503_closed]
    simp [hscript, attempt_result, _need_new_credentials, _may_retry_on_error, h503, hff,
      hstop₀, st503_closed]
  | succ K ih =>
    intro j n fuel hstop hmin hfuel
    obtain ⟨f, rfl⟩ : ∃ f, fuel = f + 1 := ⟨fuel - 1, by omega⟩
    have hp : 0 < 2 ^ j := by positivity
    have hle : ¬ policy.max_wait < 10 * 2 ^ j - 10 := by
      have h0 := hmin 0 (Nat.succ_pos K)
      simp at h0
      omega
    have hnn : _need_new_credentials r = false := by
      simp [_need_new_credentials, h503]
    have hle₂ : ¬ policy.max_wait < (st503 url session j).elapsed := by
      rw [st503_closed]
      simpa using hle
    have hmr : _may_retry_on_error r policy (st503 url session j).elapsed = .ok true := by
      unfold _may_retry_on_error
      simp [h503, hff, hle₂]
    have hstep :
        post_loop policy ar script (f + 1) n (st503 url session j) =
          post_loop policy ar script f (n + 1) (st503 url session (j + 1)) := by
      simp only [post_loop, hscript, attempt_result, hnn, hmr, Bool.false_eq_true, if_false]
      rfl
    rw [hstep]
    have hexp : ∀ m : Nat, (j + 1) + m = j + (m + 1) := by omega
    have h1 := ih (j + 1) (n + 1) f (by rw [hexp]; exact hstop)
      (by
        intro i hi
        rw [hexp]
        exact hmin (i + 1) (by omega))
      (by omega)
    rw [h1, hexp]

/-- C1: with a non fail-fast policy and a server that answers 503 on every
attempt, post_ratelimited retries with a wait that starts at 10 seconds and
doubles on each retry (recorded back-offs 10, 20, 40, and so on), until the
cumulative elapsed wait first exceeds max_wait, at which point it raises
RateLimitError carrying the response URL, the status code and the total
wait; K, the number of retries performed, is determined by max_wait through
the two bracketing hypotheses, and the total wait equals the sum of the K
recorded back-offs. -/
theorem post_ratelimited_503_rate_limit (r : Response) (policy : RetryPolicy) (ar : Bool)
    (script : Nat → AttemptOutcome) (url : String) (session K fuel : Nat)
    (h503 : r.status_code = 503) (hff : policy.fail_fast = false)
    (hscript : ∀ n, script n = .resp r)
    (hstop : policy.max_wait < 10 * 2 ^ K - 10)
    (hmin : ∀ i < K, 10 * 2 ^ i - 10 ≤ policy.max_wait)
    (hfuel : K + 1 ≤ fuel) :
    post_ratelimited policy ar script url session fuel =
      ⟨.err (.rateLimitError "Max timeout reached" r.url 503 (10 * 2 ^ K - 10)),
        some (session + K),
        { url := url, session := session + K, wait := 10 * 2 ^ K, retry := K, redirects := 0,
          elapsed := 10 * 2 ^ K - 10,
          backoffs := (List.range K).map (fun i => 10 * 2 ^ i) }⟩ := by
  have h0 : initState url session = st503 url session 0 := rfl
  unfold post_ratelimited
  rw [h0]
  have h1 := post_loop_503_aux r policy ar script url session h503 hff hscript K 0 0 fuel
    (by simpa using hstop) (by intro i hi; simpa using hmin i hi) hfuel
  rw [h1]
  simp only [Nat.zero_add]
  rw [st503_closed]

/-- C1 witness: with max_wait 50 the run performs exactly three retries
with back-offs 10, 20 and 40, then raises RateLimitError with total wait
70. -/
theorem post_ratelimited_503_rate_limit_witness :
    post_ratelimited ⟨false, 50⟩ false (fun _ => .resp ⟨503, "https://h/p", [], [], []⟩)
        "https://h/p" 2 4 =
      ⟨.err (.rateLimitError "Max timeout reached" "https://h/p" 503 70),
        some 5,
        { url := "https://h/p", session := 5, wait := 80, retry := 3, redirects := 0,
          elapsed := 70, backoffs := [10, 20, 40] }⟩ := by
  rw [post_ratelimited_503_rate_limit ⟨503, "https://h/p", [], [], []⟩ ⟨false, 50⟩ false
    (fun _ => .resp ⟨503, "https://h/p", [], [], []⟩) "https://h/p" 2 3 4 rfl rfl (fun _ => rfl)
    (by decide) (by decide) (by decide)]
  decide

/-- C9: for every response with status 200 obtained on the first attempt,
post_ratelimited returns that response paired with the session it was
given, with no retry, no recorded back-off and no session retirement: the
loop state at exit is still the initial state. -/
theorem post_ratelimited_200_immediate (r : Response) (policy : RetryPolicy)
    (allow_redirects : Bool) (script : Nat → AttemptOutcome) (url : String)
    (session fuel : Nat) (h200 : r.status_code = 200) (hscript : script 0 = .resp r)
    (hfuel : 1 ≤ fuel) :
    post_ratelimited policy allow_redirects script url session fuel =
      ⟨.ok r session, none, initState url session⟩ := by
  obtain ⟨f, rfl⟩ : ∃ f, fuel = f + 1 := ⟨fuel - 1, by omega⟩
  unfold post_ratelimited post_loop
  simp [hscript, attempt_result, _need_new_credentials, _may_retry_on_error, h200, initState]

/-- C9 witness at a concrete 200 response. -/
theorem post_ratelimited_200_immediate_witness :
    post_ratelimited ⟨false, 3600⟩ false
        (fun _ => .resp ⟨200, "https://h/p", [], [], []⟩) "https://h/p" 5 3 =
      ⟨.ok ⟨200, "https://h/p", [], [], []⟩ 5, none, initState "https://h/p" 5⟩ :=
  post_ratelimited_200_immediate ⟨200, "https://h/p", [], [], []⟩ ⟨false, 3600⟩ false
    (fun _ => .resp ⟨200, "https://h/p", [], [], []⟩) "https://h/p" 5 3 rfl rfl (by decide)

/-- C2 counterexample: a response with status 500 whose body is a
well-formed XML document that contains the EWS server error marker is not
returned as success when the policy is not fail-fast: the loop retries on
it, and with an exhausted wait budget post_ratelimited raises
RateLimitError instead of returning the response. -/
theorem post_ratelimited_500_xml_not_returned :
    is_xml (asciiBytes ("<?xml version=" ++ apos.toString ++ "1.0" ++ apos.toString ++
        "?><e>Server Error in " ++ apos.toString ++ "/EWS" ++ apos.toString ++
        " Application</e>")) = true ∧
    (post_ratelimited ⟨false, 0⟩ false
        (fun _ => .resp ⟨500, "https://h/ews",  [],
          asciiBytes ("<?xml version=" ++ apos.toString ++ "1.0" ++ apos.toString ++
            "?><e>Server Error in " ++ apos.toString ++ "/EWS" ++ apos.toString ++
            " Application</e>"), []⟩) "https://h/ews" 0 3).outcome =
      .err (.rateLimitError "Max timeout reached" "https://h/ews" 500 10) := by
  decide

/-- C2 amended: for every response with status 500 whose body is nonempty
and passes the lightweight XML test of is_xml, and which is not
retry-eligible (the policy is fail-fast, or the response has neither a
connection close header nor the EWS server error marker in its body),
post_ratelimited obtained on the first attempt treats it as success: the
response is returned with the session, no error is raised and the session
is not retired. -/
theorem post_ratelimited_500_xml_success (r : Response) (policy : RetryPolicy)
    (allow_redirects : Bool) (script : Nat → AttemptOutcome) (url : String)
    (session fuel : Nat) (h500 : r.status_code = 500) (hc : r.content ≠ [])
    (hxml : is_xml r.content = true)
    (hnoretry : policy.fail_fast = true ∨
      (headerGet r.headers "connection" ≠ some "close" ∧
        hasSub serverErrorMarker r.content = false))
    (hscript : script 0 = .resp r) (hfuel : 1 ≤ fuel) :
    post_ratelimited policy allow_redirects script url session fuel =
      ⟨.ok r session, none, initState url session⟩ := by
  obtain ⟨f, rfl⟩ : ∃ f, fuel = f + 1 := ⟨fuel - 1, by omega⟩
  unfold post_ratelimited post_loop
  rcases hnoretry with hff | ⟨hconn, hmark⟩
  · simp [hscript, attempt_result, _need_new_credentials, _may_retry_on_error, h500, hc, hxml,
      initState, hff]
  · simp [hscript, attempt_result, _need_new_credentials, _may_retry_on_error, h500, hc, hxml,
      initState, hconn, hmark]

/-- C2 amended witness at a concrete 500 response with an XML body. -/
theorem post_ratelimited_500_xml_success_witness :
    post_ratelimited ⟨false, 3600⟩ false
        (fun _ => .resp ⟨500, "https://h/p", [], asciiBytes "<?xml version=\"1.0\"?><a/>", []⟩)
        "https://h/p" 4 3 =
      ⟨.ok ⟨500, "https://h/p", [], asciiBytes "<?xml version=\"1.0\"?><a/>", []⟩ 4,
        none, initState "https://h/p" 4⟩ :=
  post_ratelimited_500_xml_success
    ⟨500, "https://h/p", [], asciiBytes "<?xml version=\"1.0\"?><a/>", []⟩ ⟨false, 3600⟩ false
    (fun _ => .resp ⟨500, "https://h/p", [], asciiBytes "<?xml version=\"1.0\"?><a/>", []⟩)
    "https://h/p" 4 3 rfl (by decide) (by decide) (.inr (by decide)) rfl (by decide)

/-- C3 counterexample: for a 302 response whose location header equals the
request URL, with a non fail-fast policy, redirects allowed and a generous
wait budget, execute does not continue the retry loop: it raises
TransportError about the same-location redirect on the first attempt,
retiring the session, with the loop state still initial (no retry, no
back-off, no followed redirect). -/
theorem post_ratelimited_same_location_redirect_raises :
    post_ratelimited ⟨false, 3600⟩ true
        (fun _ => .resp ⟨302, "https://host/ews/exchange.asmx",
          [("location", "https://host/ews/exchange.asmx")], [], []⟩)
        "https://host/ews/exchange.asmx" 0 5 =
      ⟨.err (.transportError "Redirect to same location: https://host/ews/exchange.asmx"),
        some 0, initState "https://host/ews/exchange.asmx" 0⟩ := by
  decide

/-- C3 amended: for every first-attempt redirect response (status 301 or
302) that is not retry-eligible on other grounds (no connection close
header, not the generic error page location) and whose location header
resolves to exactly the request URL, execute does not treat the redirect as
progress: it raises TransportError about the same-location redirect and
retires the session instead of following the redirect or continuing the
loop, so no unbounded redirect following occurs. -/
theorem post_ratelimited_same_location_fatal (r : Response) (policy : RetryPolicy)
    (allow_redirects : Bool) (script : Nat → AttemptOutcome) (url loc pth server : String)
    (ssl : Bool) (session fuel : Nat)
    (hst : r.status_code = 301 ∨ r.status_code = 302)
    (hconn : headerGet r.headers "connection" ≠ some "close")
    (hgep : strLower loc ≠ genericErrorPagePath)
    (hloc : headerGet r.headers "location" = some loc) (hlocne : loc ≠ "")
    (hhist : r.history = [])
    (hsplit : split_url loc = (ssl, server, pth))
    (hserver : server ≠ "") (hpath : strLeads "/" pth = true)
    (hsame : (if ssl then "https" else "http") ++ "://" ++ server ++ pth = r.url)
    (hscript : script 0 = .resp r) (hfuel : 1 ≤ fuel) :
    post_ratelimited policy allow_redirects script url session fuel =
      ⟨.err (.transportError ("Redirect to same location: " ++ r.url)),
        some session, initState url session⟩ := by
  obtain ⟨f, rfl⟩ : ∃ f, fuel = f + 1 := ⟨fuel - 1, by omega⟩
  unfold post_ratelimited post_loop
  rcases hst with hst | hst <;> cases hff : policy.fail_fast <;>
    simp [hscript, attempt_result, _need_new_credentials, _may_retry_on_error, hst, hff,
      _redirect_or_fail, get_redirect_url, hloc, hlocne, hhist, hsplit, hserver, hpath, hsame,
      hconn, hgep, initState]

/-- C3 amended witness at the concrete same-location 302 of the
counterexample, reached through the general theorem. -/
theorem post_ratelimited_same_location_fatal_witness :
    post_ratelimited ⟨false, 3600⟩ true
        (fun _ => .resp ⟨302, "https://host/ews/exchange.asmx",
          [("location", "https://host/ews/exchange.asmx")], [], []⟩)
        "https://host/ews/exchange.asmx" 3 5 =
      ⟨.err (.transportError "Redirect to same location: https://host/ews/exchange.asmx"),
        some 3, initState "https://host/ews/exchange.asmx" 3⟩ := by
  rw [post_ratelimited_same_location_fatal
    ⟨302, "https://host/ews/exchange.asmx",
      [("location", "https://host/ews/exchange.asmx")], [], []⟩ ⟨false, 3600⟩ true
    (fun _ => .resp ⟨302, "https://host/ews/exchange.asmx",
      [("location", "https://host/ews/exchange.asmx")], [], []⟩)
    "https://host/ews/exchange.asmx" "https://host/ews/exchange.asmx"
    "/ews/exchange.asmx" "host" true 3 5
    (.inr rfl) (by decide) (by decide) rfl (by decide) rfl (by decide) (by decide) (by decide)
    (by decide) rfl (by decide)]
  decide

/-- C4: get_redirect_url resolves a path-only location header against the
scheme and host of the response URL, and returns an absolute https location
header (with lowercase host and no query, so that parsing and rebuilding
reproduce it) verbatim, whenever resolution does not reproduce the request
URL. -/
theorem get_redirect_url_resolution :
    (∀ (r : Response) (loc host respPath locPath : String),
      r.history = [] →
      headerGet r.headers "location" = some loc → loc ≠ "" →
      split_url loc = (false, "", locPath) → strLeads "/" locPath = true →
      split_url r.url = (true, host, respPath) →
      "https://" ++ host ++ locPath ≠ r.url →
      get_redirect_url r = .ok ("https://" ++ host ++ locPath)) ∧
    (∀ (r : Response) (loc server locPath : String),
      r.history = [] →
      headerGet r.headers "location" = some loc → loc ≠ "" →
      split_url loc = (true, server, locPath) → server ≠ "" →
      strLeads "/" locPath = true →
      loc = "https://" ++ server ++ locPath →
      loc ≠ r.url →
      get_redirect_url r = .ok loc) := by
  constructor
  · intro r loc host respPath locPath hhist hloc hlocne hsplitLoc hlead hsplitResp hne
    unfold get_redirect_url
    simp [hloc, hlocne, hhist, hsplitLoc, hlead, hsplitResp, hne]
  · intro r loc server locPath hhist hloc hlocne hsplitLoc hserver hlead hverb hne
    unfold get_redirect_url
    simp [hloc, hlocne, hhist, hsplitLoc, hserver, hlead, ← hverb, hne]

/-- C4 witness at the two concrete examples of the claim: a path-only
location resolved against the response URL, and an absolute location
returned verbatim. -/
theorem get_redirect_url_resolution_witness :
    get_redirect_url ⟨302, "https://host/ews/exchange.asmx",
        [("location", "/ews/other.asmx")], [], []⟩ = .ok "https://host/ews/other.asmx" ∧
    get_redirect_url ⟨302, "https://host/ews/exchange.asmx",
        [("location", "https://otherhost/x")], [], []⟩ = .ok "https://otherhost/x" := by
  constructor
  · have h := get_redirect_url_resolution.1
      ⟨302, "https://host/ews/exchange.asmx", [("location", "/ews/other.asmx")], [], []⟩
      "/ews/other.asmx" "host" "/ews/exchange.asmx" "/ews/other.asmx"
      rfl rfl (by decide) (by decide) (by decide) (by decide) (by decide)
    rw [h]; decide
  · have h := get_redirect_url_resolution.2
      ⟨302, "https://host/ews/exchange.asmx", [("location", "https://otherhost/x")], [], []⟩
      "https://otherhost/x" "otherhost" "/x"
      rfl rfl (by decide) (by decide) (by decide) (by decide) (by decide) (by decide)
    rw [h]

/-- Property of a finished run: every raised error carries a retired
session, namely the session current at the raise site, and a returned
response leaves its session unretired. -/
def RetireOK (res : RunResult) : Prop :=
  (∀ e, res.outcome = .err e → res.retired = some res.finalState.session) ∧
  (∀ r s, res.outcome = .ok r s → res.retired = none ∧ s = res.finalState.session)

theorem retireOK_err (e : EwsError) (st : LoopState) :
    RetireOK ⟨.err e, some st.session, st⟩ := by
  constructor
  · intro e₂ h
    rfl
  · intro r s h
    simp at h

theorem retireOK_ok (r : Response) (st : LoopState) :
    RetireOK ⟨.ok r st.session, none, st⟩ := by
  constructor
  · intro e h
    simp at h
  · intro r₂ s h
    simp only [Outcome.ok.injEq] at h
    exact ⟨rfl, h.2.symm⟩

theorem post_loop_retires (policy : RetryPolicy) (ar : Bool) (script : Nat → AttemptOutcome) :
    ∀ (fuel n : Nat) (st : LoopState), RetireOK (post_loop policy ar script fuel n st) := by
  intro fuel
  induction fuel with
  | zero =>
    intro n st
    constructor
    · intro e h
      simp [post_loop] at h
    · intro r s h
      simp [post_loop] at h
  | succ f ih =>
    intro n st
    simp only [post_loop]
    cases hs : script n <;> simp only [attempt_result] <;> repeat' split
    all_goals first
      | exact ih (n + 1) _
      | exact retireOK_err _ _
      | exact retireOK_ok _ _

/-- C8: whenever post_ratelimited raises an error, from inside the retry
loop or from the terminal classification, the session current at the raise
site is retired before the error propagates; when it returns a response,
the session paired with it is the current session and is not retired, so a
session implicated in a failure is never handed back to the caller. -/
theorem post_ratelimited_retires_on_error (policy : RetryPolicy) (ar : Bool)
    (script : Nat → AttemptOutcome) (url : String) (session fuel : Nat) :
    (∀ e, (post_ratelimited policy ar script url session fuel).outcome = .err e →
      (post_ratelimited policy ar script url session fuel).retired =
        some (post_ratelimited policy ar script url session fuel).finalState.session) ∧
    (∀ r s, (post_ratelimited policy ar script url session fuel).outcome = .ok r s →
      (post_ratelimited policy ar script url session fuel).retired = none ∧
      s = (post_ratelimited policy ar script url session fuel).finalState.session) :=
  post_loop_retires policy ar script fuel 0 (initState url session)

/-- C8 witness: a run that raises TransportError on a TLS failure retires
the session it was using. -/
theorem post_ratelimited_retires_on_error_witness :
    (post_ratelimited ⟨true, 0⟩ false (fun _ => .tlsError "boom") "https://h/p" 9 3).retired =
      some 9 := by
  have h := (post_ratelimited_retires_on_error ⟨true, 0⟩ false (fun _ => .tlsError "boom")
    "https://h/p" 9 3).1 (.transportError "boom") (by decide)
  rw [h]
  decide

/-- C10 counterexample: the closing tag FooEnvelope from the claim does not
end with the bytes slash Envelope closing bracket (its final ten bytes are
oEnvelope and the closing bracket), so it does not close the document: the
document stays open and is dropped at end of input, yielding nothing rather
than emitting the document the claim describes. -/
theorem documentYielder_fooEnvelope_does_not_close :
    documentYielder (asciiBytes "<EnvelopeFoo x=\"1\">b</FooEnvelope>") = [] ∧
    trailsWith (docEndToken "Envelope") (asciiBytes "</FooEnvelope>") = false := by
  decide

/-- C10 amended: DocumentYielder matches tags by token ends, not exact
names: outside a document, a tag starting with the bytes of an opening
angle bracket and the root tag, such as EnvelopeFoo, opens a document;
inside a document, a tag whose bytes literally end with slash, root tag and
closing angle bracket, such as the tag Foo slash Envelope, closes and emits
it (the claimed example FooEnvelope inside a closing tag does not, since
its bytes do not end with that token); and a document still open when the
input is exhausted is dropped without being emitted. -/
theorem documentYielder_matches_token_ends :
    documentYielder (asciiBytes "<EnvelopeFoo x=\"1\">b<Foo/Envelope>") =
      [xmlDeclLine ++ asciiBytes "<EnvelopeFoo x=\"1\">b<Foo/Envelope>"] ∧
    documentYielder (asciiBytes "<Envelope y=\"2\">open") = [] ∧
    leadsWith (docStartToken "Envelope") (asciiBytes "<EnvelopeFoo ") = true ∧
    trailsWith (docEndToken "Envelope") (asciiBytes "<Foo/Envelope>") = true := by
  decide

